import Mathlib

/- Verification of the request-handling core of the Bedrock proxy Lambda
(src/lambda_function.py).

The Python module is shallowly embedded below:
  * JSON values produced by json.loads are the inductive JValue; Python
    distinguishes int and float after parsing, and bool is a subclass of
    int, so all three are separate constructors.
  * Python exceptions raised inside the translated functions (TypeError,
    KeyError, IndexError, AttributeError) are modelled with Except Unit;
    the enclosing try/except blocks of the source become matches on the
    Except result.
  * The remote call bedrock_client.invoke_model is external: it is a
    parameter of type JValue → RemoteOutcome, where RemoteOutcome covers a
    successful body, a botocore ClientError, a BotoCoreError, and any
    other exception raised by the call.
  * time.time() and context.aws_request_id are external inputs and appear
    as explicit parameters (ts, ems, ctx) of the handler.
-/

namespace Bedrock

/-- JSON values as returned by Python json.loads: null, bool, int, float
(floats modelled as rationals), str, list, dict (insertion-ordered,
unique keys). -/
inductive JValue where
  | jnull : JValue
  | jbool : Bool → JValue
  | jint : Int → JValue
  | jfloat : ℚ → JValue
  | jstr : String → JValue
  | jarr : List JValue → JValue
  | jobj : List (String × JValue) → JValue

open JValue

/-- Python truthiness of a json.loads value: None, False, 0, 0.0, empty
string, empty list and empty dict are falsy. -/
def truthy : JValue → Bool
  | jnull => false
  | jbool b => b
  | jint n => decide (n ≠ 0)
  | jfloat q => decide (q ≠ 0)
  | jstr s => decide (s.length ≠ 0)
  | jarr xs => decide (xs.length ≠ 0)
  | jobj kvs => decide (kvs.length ≠ 0)

/-- Whether the character list starts with the given pattern. -/
def charsStartsWith : List Char → List Char → Bool
  | _, [] => true
  | [], _ :: _ => false
  | c :: cs, d :: ds => c = d && charsStartsWith cs ds

/-- Whether the pattern occurs as a contiguous sublist. -/
def charsHasSub : List Char → List Char → Bool
  | [], pat => charsStartsWith [] pat
  | c :: cs, pat => charsStartsWith (c :: cs) pat || charsHasSub cs pat

/-- Python substring test `pat in s` (used both for model-id dispatch and
for `in` on str bodies); only called with non-empty patterns. -/
def strContains (s pat : String) : Bool :=
  charsHasSub s.data pat.data

/-- Python `k in xs` for a string k and a list xs: membership by equality,
where a str only ever equals the same str. -/
def listHasStr (xs : List JValue) (k : String) : Bool :=
  xs.any fun x =>
    match x with
    | jstr s => decide (s = k)
    | _ => false

/-- Python `k in v` for a string key k: dict → key test, list → membership
(element equal to the string k), str → substring test; any other type
raises TypeError. -/
def pyContains (v : JValue) (k : String) : Except Unit Bool :=
  match v with
  | jobj kvs => .ok (List.lookup k kvs).isSome
  | jarr xs => .ok (listHasStr xs k)
  | jstr s => .ok (strContains s k)
  | _ => .error ()

/-- Python `v[k]` for a string key k: dict lookup (KeyError when absent);
on any non-dict a string subscript raises TypeError. -/
def pySubscript (v : JValue) (k : String) : Except Unit JValue :=
  match v with
  | jobj kvs =>
    match List.lookup k kvs with
    | some x => .ok x
    | none => .error ()
  | _ => .error ()

/-- Python `v.get(k, d)`: dict get with default; AttributeError on a
non-dict. -/
def pyDictGet (v : JValue) (k : String) (d : JValue) : Except Unit JValue :=
  match v with
  | jobj kvs => .ok ((List.lookup k kvs).getD d)
  | _ => .error ()

/-- Python `v.get(k)`: dict get returning None when absent; AttributeError
on a non-dict. The None/absent result is Option.none. -/
def pyDictGetOpt (v : JValue) (k : String) : Except Unit (Option JValue) :=
  match v with
  | jobj kvs => .ok (List.lookup k kvs)
  | _ => .error ()

/-- Python `v[0]`: head of a list (IndexError when empty), first character
of a str; TypeError otherwise. -/
def pyIndex0 (v : JValue) : Except Unit JValue :=
  match v with
  | jarr (x :: _) => .ok x
  | jarr [] => .error ()
  | jstr s =>
    match s.data with
    | c :: _ => .ok (jstr (String.mk [c]))
    | [] => .error ()
  | _ => .error ()

/-- Python isinstance(v, int): true for int and for bool (bool is a
subclass of int). -/
def pyIsInstInt : JValue → Bool
  | jint _ => true
  | jbool _ => true
  | _ => false

/-- Python isinstance(v, (int, float)): ints, floats and bools. -/
def pyIsInstNum : JValue → Bool
  | jint _ => true
  | jfloat _ => true
  | jbool _ => true
  | _ => false

/-- Numeric value of an int/float/bool (True counts as 1, False as 0);
only applied under an isinstance guard in the source, 0 elsewhere. -/
def pyAsRat : JValue → ℚ
  | jint n => (n : ℚ)
  | jfloat q => q
  | jbool b => if b then 1 else 0
  | _ => 0

/-- The chained comparison `0 <= v <= 1` of the source, under the
isinstance(v, (int, float)) guard. -/
def pyInUnit (v : JValue) : Bool :=
  decide (0 ≤ pyAsRat v ∧ pyAsRat v ≤ 1)

/-- Process-wide configuration read from the environment at module load:
BEDROCK_MODEL_ID, MAX_TOKENS, TEMPERATURE, TOP_P. -/
structure Config where
  BEDROCK_MODEL_ID : String
  MAX_TOKENS : Int
  TEMPERATURE : ℚ
  TOP_P : ℚ
deriving DecidableEq

/-- The defaults of the source: anthropic.claude-3-sonnet-20240229-v1:0,
1000, 0.7, 0.9. -/
def cfgDefault : Config :=
  ⟨"anthropic.claude-3-sonnet-20240229-v1:0", 1000, mkRat 7 10, mkRat 9 10⟩

/-- The `body` entry of the trigger event: absent key, present but falsy
(None or empty string), a non-empty string json.loads rejects
(JSONDecodeError), or a non-empty string parsing to a JValue. -/
inductive BodyField where
  | absent : BodyField
  | empty : BodyField
  | malformed : BodyField
  | parsed : JValue → BodyField

/-- The slice of the trigger event the module consumes: httpMethod
(event.get returns none when the key is missing) and body. -/
structure Event where
  httpMethod : Option String
  body : BodyField

/-- Lines 71-72 of the source: the `top_p` field check, then the final
`return True, "Valid request", body`. -/
def validateTopP (body : JValue) : Except Unit (Bool × String × Option JValue) :=
  match pyContains body "top_p" with
  | .error e => .error e
  | .ok has =>
    if has then
      match pySubscript body "top_p" with
      | .error e => .error e
      | .ok tp =>
        if !(pyIsInstNum tp) || !(pyInUnit tp) then
          .ok (false, "top_p must be a number between 0 and 1", none)
        else .ok (true, "Valid request", some body)
    else .ok (true, "Valid request", some body)

/-- Lines 68-69 of the source: the `temperature` field check. -/
def validateTemperature (body : JValue) : Except Unit (Bool × String × Option JValue) :=
  match pyContains body "temperature" with
  | .error e => .error e
  | .ok has =>
    if has then
      match pySubscript body "temperature" with
      | .error e => .error e
      | .ok t =>
        if !(pyIsInstNum t) || !(pyInUnit t) then
          .ok (false, "temperature must be a number between 0 and 1", none)
        else validateTopP body
    else validateTopP body

/-- Lines 65-66 of the source: the `max_tokens` field check
(`not isinstance(x, int) or x < 1`, with bools counting as ints). -/
def validateMaxTokens (body : JValue) : Except Unit (Bool × String × Option JValue) :=
  match pyContains body "max_tokens" with
  | .error e => .error e
  | .ok has =>
    if has then
      match pySubscript body "max_tokens" with
      | .error e => .error e
      | .ok mt =>
        if !(pyIsInstInt mt) || decide (pyAsRat mt < 1) then
          .ok (false, "max_tokens must be a positive integer", none)
        else validateTemperature body
    else validateTemperature body

/-- Lines 61-62 of the source: `if "prompt" not in body or not body["prompt"]`,
then the optional-field checks. Raises (Except.error) when the parsed body
is not a dict and the subscript or membership test raises. -/
def validateBody (body : JValue) : Except Unit (Bool × String × Option JValue) :=
  match pyContains body "prompt" with
  | .error e => .error e
  | .ok hasPrompt =>
    if !hasPrompt then
      .ok (false, "Prompt is required in request body", none)
    else
      match pySubscript body "prompt" with
      | .error e => .error e
      | .ok p =>
        if !(truthy p) then
          .ok (false, "Prompt is required in request body", none)
        else validateMaxTokens body

/-- validate_request (lines 43-80): OPTIONS short-circuit, POST check,
body presence, json.loads (the malformed case is the JSONDecodeError
handler), field validation; any other exception inside the try block is
caught and reported as "Internal validation error". -/
def validate_request (ev : Event) : Bool × String × Option JValue :=
  if ev.httpMethod = some "OPTIONS" then
    (true, "CORS preflight", none)
  else if ev.httpMethod ≠ some "POST" then
    (false, "Only POST method is supported", none)
  else
    match ev.body with
    | .absent => (false, "Request body is required", none)
    | .empty => (false, "Request body is required", none)
    | .malformed => (false, "Invalid JSON in request body", none)
    | .parsed v =>
      match validateBody v with
      | .ok r => r
      | .error _ => (false, "Internal validation error", none)

/-- Left-pad with zeros to the given width. -/
def padZerosLeft (s : String) (k : Nat) : String :=
  String.mk (List.replicate (k - s.length) '0') ++ s

/-- Decimal rendering of a rational, modelling Python repr of a float:
exact decimal expansion when the denominator divides a power of ten
(always the case for the configured defaults), num/den otherwise.
Python repr of a binary float can differ in the last digits; no claim
depends on this string. -/
def floatRepr (q : ℚ) : String :=
  let sign := if q < 0 then "-" else ""
  let n := q.num.natAbs
  let d := q.den
  match (List.range 30).find? fun k => decide (d ∣ 10 ^ k) with
  | some k =>
    if k = 0 then sign ++ toString n ++ ".0"
    else
      let m := n * (10 ^ k / d)
      sign ++ toString (m / 10 ^ k) ++ "." ++ padZerosLeft (toString (m % 10 ^ k)) k
  | none => sign ++ toString n ++ "/" ++ toString d

/-- Lower-case hexadecimal digit. -/
def hexDigit (n : Nat) : Char :=
  if n < 10 then Char.ofNat (48 + n) else Char.ofNat (87 + n)

/-- Four lower-case hex digits. -/
def hex4 (n : Nat) : String :=
  String.mk [hexDigit (n / 4096 % 16), hexDigit (n / 256 % 16),
             hexDigit (n / 16 % 16), hexDigit (n % 16)]

/-- JSON string escaping as json.dumps performs it (ensure_ascii False:
non-ASCII characters pass through unescaped). -/
def jsonEscapeChar (c : Char) : String :=
  if c = '"' then "\\\""
  else if c = '\\' then "\\\\"
  else if c = '\n' then "\\n"
  else if c = '\t' then "\\t"
  else if c = '\r' then "\\r"
  else if c.toNat = 8 then "\\b"
  else if c.toNat = 12 then "\\f"
  else if c.toNat < 32 then "\\u" ++ hex4 c.toNat
  else String.mk [c]

/-- Escape every character of a JSON string. -/
def jsonEscape (s : String) : String :=
  String.join (s.data.map jsonEscapeChar)

mutual

/-- json.dumps(v, ensure_ascii False) with the default separators. -/
def pyJsonDumps : JValue → String
  | jnull => "null"
  | jbool true => "true"
  | jbool false => "false"
  | jint n => toString n
  | jfloat q => floatRepr q
  | jstr s => "\"" ++ jsonEscape s ++ "\""
  | jarr xs => "[" ++ pyJsonDumpsList xs ++ "]"
  | jobj kvs => "\x7b" ++ pyJsonDumpsObj kvs ++ "\x7d"

/-- Comma-separated dump of list elements. -/
def pyJsonDumpsList : List JValue → String
  | [] => ""
  | [x] => pyJsonDumps x
  | x :: y :: xs => pyJsonDumps x ++ ", " ++ pyJsonDumpsList (y :: xs)

/-- Comma-separated dump of dict entries. -/
def pyJsonDumpsObj : List (String × JValue) → String
  | [] => ""
  | [(k, v)] => "\"" ++ jsonEscape k ++ "\": " ++ pyJsonDumps v
  | (k, v) :: p :: kvs =>
    "\"" ++ jsonEscape k ++ "\": " ++ pyJsonDumps v ++ ", " ++ pyJsonDumpsObj (p :: kvs)

end

mutual

/-- Python repr of a json.loads value: None/True/False, plain numbers,
single-quoted strings (repr escaping of quotes and backslashes is not
modelled; no claim depends on it), bracketed lists and braced dicts. -/
def pyRepr : JValue → String
  | jnull => "None"
  | jbool true => "True"
  | jbool false => "False"
  | jint n => toString n
  | jfloat q => floatRepr q
  | jstr s => "\x27" ++ s ++ "\x27"
  | jarr xs => "[" ++ pyReprList xs ++ "]"
  | jobj kvs => "\x7b" ++ pyReprObj kvs ++ "\x7d"

/-- Comma-separated repr of list elements. -/
def pyReprList : List JValue → String
  | [] => ""
  | [x] => pyRepr x
  | x :: y :: xs => pyRepr x ++ ", " ++ pyReprList (y :: xs)

/-- Comma-separated repr of dict entries. -/
def pyReprObj : List (String × JValue) → String
  | [] => ""
  | [(k, v)] => "\x27" ++ k ++ "\x27: " ++ pyRepr v
  | (k, v) :: p :: kvs =>
    "\x27" ++ k ++ "\x27: " ++ pyRepr v ++ ", " ++ pyReprObj (p :: kvs)

end

/-- Python str(): identity on strings, repr on everything else (the
source only applies it to the parsed response dict). -/
def pyStr (v : JValue) : String :=
  match v with
  | jstr s => s
  | _ => pyRepr v

/-- Outcome of the external bedrock_client.invoke_model call: a
successful response (parsed body plus ResponseMetadata.RequestId), a
botocore ClientError carrying the provider error code and message, a
BotoCoreError carrying str(e), or any other exception. -/
inductive RemoteOutcome where
  | success : JValue → Option String → RemoteOutcome
  | clientError : String → String → RemoteOutcome
  | botoCoreError : String → RemoteOutcome
  | otherError : String → RemoteOutcome

/-- Return value of invoke_bedrock_model: the success dict
(content, model_id, usage, response_metadata.request_id) or the failure
dict (error.code, error.message). -/
inductive InvokeResult where
  | ok : JValue → String → JValue → Option String → InvokeResult
  | err : String → String → InvokeResult

/-- Python `x or d` on an optional parameter: the argument when it is
present and truthy, the default otherwise (0, 0.0, False and None all
fall through to the default). -/
def pyOr (x : Option JValue) (d : JValue) : JValue :=
  match x with
  | none => d
  | some v => if truthy v then v else d

/-- Lines 85-120 of the source: effective parameters via `or`-defaulting,
then the three-way payload branch keyed by substring match on
BEDROCK_MODEL_ID. -/
def build_request_body (cfg : Config) (prompt : JValue)
    (max_tokens temperature top_p : Option JValue) : JValue :=
  let mt := pyOr max_tokens (jint cfg.MAX_TOKENS)
  let t := pyOr temperature (jfloat cfg.TEMPERATURE)
  let tp := pyOr top_p (jfloat cfg.TOP_P)
  if strContains cfg.BEDROCK_MODEL_ID "anthropic" then
    jobj [("anthropic_version", jstr "bedrock-2023-05-31"),
          ("max_tokens", mt),
          ("temperature", t),
          ("top_p", tp),
          ("messages", jarr [jobj [("role", jstr "user"), ("content", prompt)]])]
  else if strContains cfg.BEDROCK_MODEL_ID "amazon.titan" then
    jobj [("inputText", prompt),
          ("textGenerationConfig",
            jobj [("maxTokenCount", mt), ("temperature", t), ("topP", tp)])]
  else
    jobj [("prompt", prompt),
          ("max_tokens", mt),
          ("temperature", t),
          ("top_p", tp)]

/-- Lines 134-140 of the source: content extraction from the parsed
response body, three-way branch on BEDROCK_MODEL_ID. Missing keys, wrong
shapes and non-dict bodies raise (KeyError/IndexError/TypeError/
AttributeError), reaching the generic except handler. The inner
`response_body.get("text", str(response_body))` of the generic branch is
evaluated before the outer get, as in Python. -/
def parse_content (cfg : Config) (rb : JValue) : Except Unit JValue :=
  if strContains cfg.BEDROCK_MODEL_ID "anthropic" then
    match pySubscript rb "content" with
    | .error e => .error e
    | .ok c =>
      match pyIndex0 c with
      | .error e => .error e
      | .ok c0 => pySubscript c0 "text"
  else if strContains cfg.BEDROCK_MODEL_ID "amazon.titan" then
    match pySubscript rb "results" with
    | .error e => .error e
    | .ok r =>
      match pyIndex0 r with
      | .error e => .error e
      | .ok r0 => pySubscript r0 "outputText"
  else
    match pyDictGet rb "text" (jstr (pyStr rb)) with
    | .error e => .error e
    | .ok inner => pyDictGet rb "completion" inner

/-- Lines 131-151 of the source: parse the successful response and build
the success dict; any exception during parsing falls to the generic
except handler (code "InternalError", fixed message). -/
def interpretSuccess (cfg : Config) (rb : JValue) (rid : Option String) : InvokeResult :=
  match parse_content cfg rb with
  | .error _ => .err "InternalError" "An unexpected error occurred"
  | .ok content =>
    match pyDictGet rb "usage" (jobj []) with
    | .error _ => .err "InternalError" "An unexpected error occurred"
    | .ok usage => .ok content cfg.BEDROCK_MODEL_ID usage rid

/-- Lines 126-181 of the source: the remote call and the three except
clauses. ClientError passes the provider code and message through;
BotoCoreError returns code "BotoCoreError" with str(e); any other
exception returns the fixed InternalError result. -/
def interpretOutcome (cfg : Config) : RemoteOutcome → InvokeResult
  | .success rb rid => interpretSuccess cfg rb rid
  | .clientError code msg => .err code msg
  | .botoCoreError msg => .err "BotoCoreError" msg
  | .otherError _ => .err "InternalError" "An unexpected error occurred"

/-- invoke_bedrock_model (lines 82-181): build the payload, perform the
single remote call, interpret the outcome. The built payload is returned
alongside the result so that theorems can speak about what was sent. -/
def invoke_bedrock_model (cfg : Config) (remote : JValue → RemoteOutcome)
    (prompt : JValue) (max_tokens temperature top_p : Option JValue) :
    InvokeResult × JValue :=
  let rb := build_request_body cfg prompt max_tokens temperature top_p
  (interpretOutcome cfg (remote rb), rb)

/-- The API Gateway response envelope: statusCode, headers, body (the
json.dumps of the body dict). -/
structure HttpResponse where
  statusCode : Int
  headers : List (String × String)
  body : String

/-- The fixed header set of create_response (lines 27-32). -/
def default_headers : List (String × String) :=
  [("Content-Type", "application/json"),
   ("Access-Control-Allow-Origin", "*"),
   ("Access-Control-Allow-Headers",
    "Content-Type,X-Amz-Date,Authorization,X-Api-Key,X-Amz-Security-Token"),
   ("Access-Control-Allow-Methods", "GET,POST,OPTIONS")]

/-- Python dict.update: existing keys are overwritten in place, new keys
appended in order. -/
def dictUpdate (base upd : List (String × String)) : List (String × String) :=
  upd.foldl
    (fun acc kv =>
      if acc.any fun p => p.1 = kv.1 then
        acc.map fun p => if p.1 = kv.1 then kv else p
      else acc ++ [kv])
    base

/-- create_response (lines 25-41). The handler never passes extra
headers; `none` models the Python default None (an empty dict, also
falsy in `if headers:`, skips the update just like none). -/
def create_response (statusCode : Int) (body : JValue)
    (headers : Option (List (String × String))) : HttpResponse :=
  let hs :=
    match headers with
    | some h => dictUpdate default_headers h
    | none => default_headers
  ⟨statusCode, hs, pyJsonDumps body⟩

/-- The metadata dict of the handler bodies (lines 225-229 and
elsewhere): execution_time_ms, timestamp, request_id
(context.aws_request_id, or None without a context). -/
def metaObj (ems : ℚ) (ts : Int) (ctx : Option String) : JValue :=
  jobj [("execution_time_ms", jfloat ems),
        ("timestamp", jint ts),
        ("request_id", match ctx with | some r => jstr r | none => jnull)]

/-- The outer except handler of the lambda handler (lines 248-263):
HTTP 500 with the fixed InternalServerError body. -/
def handler_catch_response (ems : ℚ) (ts : Int) (ctx : Option String) : HttpResponse :=
  create_response 500
    (jobj [("success", jbool false),
           ("error", jobj [("code", jstr "InternalServerError"),
                           ("message", jstr "An unexpected error occurred")]),
           ("metadata", metaObj ems ts ctx)])
    none

/-- Lines 207-246 of the source: extract prompt and optional parameters
from the validated body, invoke the model, shape the 200/500 response.
The subscript and .get calls can raise (only on a non-dict body, which
validation never lets through); an Except.error here reaches the outer
except handler. The second component collects the payloads handed to the
remote call. -/
def handlerBody (cfg : Config) (remote : JValue → RemoteOutcome)
    (ems : ℚ) (ts : Int) (ctx : Option String) (v : JValue) :
    Except Unit (HttpResponse × List JValue) :=
  match pySubscript v "prompt" with
  | .error e => .error e
  | .ok prompt =>
    match pyDictGetOpt v "max_tokens" with
    | .error e => .error e
    | .ok max_tokens =>
      match pyDictGetOpt v "temperature" with
      | .error e => .error e
      | .ok temperature =>
        match pyDictGetOpt v "top_p" with
        | .error e => .error e
        | .ok top_p =>
          match invoke_bedrock_model cfg remote prompt max_tokens temperature top_p with
          | (result, payload) =>
            match result with
            | .ok content model_id usage _ =>
              .ok (create_response 200
                    (jobj [("success", jbool true),
                           ("content", content),
                           ("model_id", jstr model_id),
                           ("usage", usage),
                           ("metadata", metaObj ems ts ctx)])
                    none,
                   [payload])
            | .err code msg =>
              .ok (create_response 500
                    (jobj [("success", jbool false),
                           ("error", jobj [("code", jstr code), ("message", jstr msg)]),
                           ("metadata", metaObj ems ts ctx)])
                    none,
                   [payload])

/-- handler (lines 200-246), the post-validation part: OPTIONS preflight
short-circuit, then the model invocation. When validation succeeds for a
non-OPTIONS request with params None (dead code in the source), Python
would raise a TypeError subscripting None and land in the outer except
handler; the none branch below models exactly that. -/
def handlerValidPart (cfg : Config) (remote : JValue → RemoteOutcome)
    (ems : ℚ) (ts : Int) (ctx : Option String) (ev : Event)
    (request_body : Option JValue) : HttpResponse × List JValue :=
  if ev.httpMethod = some "OPTIONS" then
    (create_response 200
      (jobj [("message", jstr "CORS preflight successful"),
             ("timestamp", jint ts)])
      none,
     [])
  else
    match request_body with
    | some v =>
      match handlerBody cfg remote ems ts ctx v with
      | .ok r => r
      | .error _ => (handler_catch_response ems ts ctx, [])
    | none => (handler_catch_response ems ts ctx, [])

/-- handler (lines 183-263), instrumented: the second component is the
list of payloads passed to the remote call (so `= []` states that
invoke_bedrock_model was never reached). ts stands for int(time.time()),
ems for the rounded elapsed milliseconds, ctx for the aws_request_id of
the execution context. -/
def handlerTrace (cfg : Config) (remote : JValue → RemoteOutcome)
    (ems : ℚ) (ts : Int) (ctx : Option String) (ev : Event) :
    HttpResponse × List JValue :=
  match validate_request ev with
  | (is_valid, message, request_body) =>
    if !is_valid then
      (create_response 400
        (jobj [("error", jbool true),
               ("message", jstr message),
               ("timestamp", jint ts)])
        none,
       [])
    else handlerValidPart cfg remote ems ts ctx ev request_body

/-- The handler as the source exposes it: just the response envelope. -/
def handler (cfg : Config) (remote : JValue → RemoteOutcome)
    (ems : ℚ) (ts : Int) (ctx : Option String) (ev : Event) : HttpResponse :=
  (handlerTrace cfg remote ems ts ctx ev).1

/-- Whether a parsed JSON value is a dict. -/
def isObj : JValue → Bool
  | jobj _ => true
  | _ => false

/-- A configuration whose model id matches neither "anthropic" nor
"amazon.titan" (the generic branch), otherwise the defaults. -/
def cfgOther : Config :=
  ⟨"some.other.model", 1000, mkRat 7 10, mkRat 9 10⟩

/-- A remote endpoint returning a well-formed Anthropic-shaped response. -/
def remoteStub : JValue → RemoteOutcome :=
  fun _ => .success (jobj [("content", jarr [jobj [("text", jstr "ok")]])]) (some "rid")

/-- A POST event whose prompt is the JSON number 42: truthy but not a
string. -/
def evPromptNum : Event :=
  ⟨some "POST", .parsed (jobj [("prompt", jint 42)])⟩

/-- A POST event with an empty JSON object body (prompt absent). -/
def evNoPrompt : Event :=
  ⟨some "POST", .parsed (jobj [])⟩

/-- A POST event whose max_tokens is the JSON boolean true. -/
def evMaxTokensTrue : Event :=
  ⟨some "POST", .parsed (jobj [("prompt", jstr "hi"), ("max_tokens", jbool true)])⟩

/-- When validation fails, the handler returns the 400 envelope with the
validation message and makes no remote call. -/
theorem handlerTrace_invalid (cfg : Config) (remote : JValue → RemoteOutcome)
    (ems : ℚ) (ts : Int) (ctx : Option String) (ev : Event) (msg : String)
    (rb : Option JValue) (h : validate_request ev = (false, msg, rb)) :
    handlerTrace cfg remote ems ts ctx ev =
      (create_response 400
        (jobj [("error", jbool true), ("message", jstr msg), ("timestamp", jint ts)])
        none,
       []) := by
  unfold handlerTrace
  rw [h]
  rfl

/-- Every successful run of the post-validation handler body yields a
create_response envelope with status 200 or 500. -/
theorem handlerBody_shape (cfg : Config) (remote : JValue → RemoteOutcome)
    (ems : ℚ) (ts : Int) (ctx : Option String) (v : JValue)
    (r : HttpResponse × List JValue)
    (h : handlerBody cfg remote ems ts ctx v = .ok r) :
    ∃ s b, r.1 = create_response s b none ∧ (s = 200 ∨ s = 500) := by
  unfold handlerBody at h
  repeat' split at h
  any_goals exact Except.noConfusion h
  · injection h with h1
    subst h1
    exact ⟨200, _, rfl, Or.inl rfl⟩
  · injection h with h1
    subst h1
    exact ⟨500, _, rfl, Or.inr rfl⟩

/-- Every output of the post-validation part is a create_response
envelope with status 200 or 500. -/
theorem handlerValidPart_shape (cfg : Config) (remote : JValue → RemoteOutcome)
    (ems : ℚ) (ts : Int) (ctx : Option String) (ev : Event)
    (rb : Option JValue) :
    ∃ s b, (handlerValidPart cfg remote ems ts ctx ev rb).1 = create_response s b none ∧
      (s = 200 ∨ s = 500) := by
  by_cases hm : ev.httpMethod = some "OPTIONS"
  · exact ⟨200, _, by unfold handlerValidPart; rw [if_pos hm], Or.inl rfl⟩
  · cases rb with
    | none =>
      exact ⟨500, _, by unfold handlerValidPart; rw [if_neg hm]; rfl, Or.inr rfl⟩
    | some v =>
      have hvp : handlerValidPart cfg remote ems ts ctx ev (some v) =
          match handlerBody cfg remote ems ts ctx v with
          | .ok r => r
          | .error _ => (handler_catch_response ems ts ctx, []) := by
        unfold handlerValidPart
        rw [if_neg hm]
      cases hb : handlerBody cfg remote ems ts ctx v with
      | error e =>
        exact ⟨500, _, by rw [hvp, hb]; rfl, Or.inr rfl⟩
      | ok r =>
        obtain ⟨s, b, hr, hs⟩ := handlerBody_shape cfg remote ems ts ctx v r hb
        exact ⟨s, b, by rw [hvp, hb]; exact hr, hs⟩

/-- When validation succeeds, the handler output is that of the
post-validation part. -/
theorem handlerTrace_valid (cfg : Config) (remote : JValue → RemoteOutcome)
    (ems : ℚ) (ts : Int) (ctx : Option String) (ev : Event)
    (msg : String) (rb : Option JValue)
    (h : validate_request ev = (true, msg, rb)) :
    handlerTrace cfg remote ems ts ctx ev =
      handlerValidPart cfg remote ems ts ctx ev rb := by
  unfold handlerTrace
  rw [h]
  rfl

/-- Every handler output is a create_response envelope with status 200,
400 or 500. -/
theorem handlerTrace_shape (cfg : Config) (remote : JValue → RemoteOutcome)
    (ems : ℚ) (ts : Int) (ctx : Option String) (ev : Event) :
    ∃ s b, (handlerTrace cfg remote ems ts ctx ev).1 = create_response s b none ∧
      (s = 200 ∨ s = 400 ∨ s = 500) := by
  rcases hv : validate_request ev with ⟨iv, msg, rb⟩
  cases iv with
  | false =>
    exact ⟨400, _, by rw [handlerTrace_invalid cfg remote ems ts ctx ev msg rb hv],
           Or.inr (Or.inl rfl)⟩
  | true =>
    obtain ⟨s, b, hr, hs⟩ := handlerValidPart_shape cfg remote ems ts ctx ev rb
    refine ⟨s, b, ?_, hs.elim Or.inl (fun h => Or.inr (Or.inr h))⟩
    rw [handlerTrace_valid cfg remote ems ts ctx ev msg rb hv]
    exact hr

/-- C1: the claim says a caller-supplied in-range 0.0 temperature or
top_p appears in the outbound payload. The code computes
`temperature or TEMPERATURE`, and Python `or` treats 0.0 as falsy, so a
supplied 0.0 is silently replaced by the configured default: under the
default configuration, invoking with temperature 0.0 and top_p 0.0
produces a payload carrying 0.7 and 0.9 instead. -/
theorem C1_zero_params_replaced_by_defaults :
    build_request_body cfgDefault (jstr "hello") none (some (jfloat 0)) (some (jfloat 0)) =
      jobj [("anthropic_version", jstr "bedrock-2023-05-31"),
            ("max_tokens", jint 1000),
            ("temperature", jfloat (mkRat 7 10)),
            ("top_p", jfloat (mkRat 9 10)),
            ("messages", jarr [jobj [("role", jstr "user"), ("content", jstr "hello")]])] ∧
    mkRat 7 10 ≠ (0 : ℚ) ∧ mkRat 9 10 ≠ (0 : ℚ) :=
  ⟨rfl, by decide, by decide⟩

/-- C2 counterexample: a BotoCoreError (network-layer failure, not a
provider-classified client error) is returned with code "BotoCoreError"
and the raw exception string as the message, so the message is not the
generic one and varies with the internal exception detail. -/
theorem C2_counterexample :
    interpretOutcome cfgDefault (.botoCoreError "Could not connect to the endpoint URL") =
      .err "BotoCoreError" "Could not connect to the endpoint URL" ∧
    interpretOutcome cfgDefault (.botoCoreError "detail-A") ≠
      interpretOutcome cfgDefault (.botoCoreError "detail-B") := by
  constructor
  · rfl
  · intro h
    injection h with h1 h2
    exact absurd h2 (by decide)

/-- C2 amended: a BotoCoreError failure returns success=false with code
"BotoCoreError" and the exception message verbatim; any other
non-client-error exception returns the generic code "InternalError" with
the fixed non-leaking message. -/
theorem C2_nonclient_failure_shapes (cfg : Config) (m : String) :
    interpretOutcome cfg (.botoCoreError m) = .err "BotoCoreError" m ∧
    interpretOutcome cfg (.otherError m) = .err "InternalError" "An unexpected error occurred" :=
  ⟨rfl, rfl⟩

/-- C5: for any event whose httpMethod is OPTIONS, the handler returns
status 200 and the remote call trace is empty (invoke_bedrock_model is
never reached). -/
theorem C5_options_short_circuits (cfg : Config) (remote : JValue → RemoteOutcome)
    (ems : ℚ) (ts : Int) (ctx : Option String) (ev : Event)
    (h : ev.httpMethod = some "OPTIONS") :
    (handlerTrace cfg remote ems ts ctx ev).1.statusCode = 200 ∧
    (handlerTrace cfg remote ems ts ctx ev).2 = [] := by
  have hv : validate_request ev = (true, "CORS preflight", none) := by
    unfold validate_request
    rw [if_pos h]
  have ht : handlerTrace cfg remote ems ts ctx ev =
      (create_response 200
        (jobj [("message", jstr "CORS preflight successful"), ("timestamp", jint ts)])
        none,
       []) := by
    rw [handlerTrace_valid cfg remote ems ts ctx ev "CORS preflight" none hv]
    unfold handlerValidPart
    rw [if_pos h]
  rw [ht]
  exact ⟨rfl, rfl⟩

/-- C5 witness: a concrete OPTIONS event. -/
theorem C5_options_short_circuits_witness :
    (handlerTrace cfgDefault remoteStub 0 0 none ⟨some "OPTIONS", .absent⟩).1.statusCode = 200 ∧
    (handlerTrace cfgDefault remoteStub 0 0 none ⟨some "OPTIONS", .absent⟩).2 = [] :=
  C5_options_short_circuits cfgDefault remoteStub 0 0 none ⟨some "OPTIONS", .absent⟩ rfl

/-- C6: for any event whose method is neither POST nor OPTIONS (a
missing httpMethod included), validation fails with exactly the message
"Only POST method is supported" and the handler returns status 400. -/
theorem C6_non_post_rejected (cfg : Config) (remote : JValue → RemoteOutcome)
    (ems : ℚ) (ts : Int) (ctx : Option String) (ev : Event)
    (h1 : ev.httpMethod ≠ some "OPTIONS") (h2 : ev.httpMethod ≠ some "POST") :
    validate_request ev = (false, "Only POST method is supported", none) ∧
    (handlerTrace cfg remote ems ts ctx ev).1.statusCode = 400 := by
  have hv : validate_request ev = (false, "Only POST method is supported", none) := by
    unfold validate_request
    rw [if_neg h1, if_pos h2]
  refine ⟨hv, ?_⟩
  rw [handlerTrace_invalid cfg remote ems ts ctx ev _ none hv]
  rfl

/-- C6 witness: a concrete GET event. -/
theorem C6_non_post_rejected_witness :
    validate_request ⟨some "GET", .absent⟩ = (false, "Only POST method is supported", none) ∧
    (handlerTrace cfgDefault remoteStub 0 0 none ⟨some "GET", .absent⟩).1.statusCode = 400 :=
  C6_non_post_rejected cfgDefault remoteStub 0 0 none ⟨some "GET", .absent⟩
    (by decide) (by decide)

/-- C7: every handler response carries exactly the fixed header set of
create_response, which contains the four CORS headers with their
documented values. -/
theorem C7_cors_headers (cfg : Config) (remote : JValue → RemoteOutcome)
    (ems : ℚ) (ts : Int) (ctx : Option String) (ev : Event) :
    (handlerTrace cfg remote ems ts ctx ev).1.headers = default_headers ∧
    List.lookup "Content-Type" default_headers = some "application/json" ∧
    List.lookup "Access-Control-Allow-Origin" default_headers = some "*" ∧
    List.lookup "Access-Control-Allow-Headers" default_headers =
      some "Content-Type,X-Amz-Date,Authorization,X-Api-Key,X-Amz-Security-Token" ∧
    List.lookup "Access-Control-Allow-Methods" default_headers = some "GET,POST,OPTIONS" := by
  obtain ⟨s, b, hr, _⟩ := handlerTrace_shape cfg remote ems ts ctx ev
  refine ⟨?_, rfl, rfl, rfl, rfl⟩
  rw [hr]
  rfl

/-- C8: with a model id matching neither "anthropic" nor "amazon.titan",
the content extracted from a successful dict response is the value of
its completion key, else of its text key, else the stringified dump of
the whole response; in particular the response holding only
text: "fallback reply" yields exactly that string. -/
theorem C8_generic_content_extraction (cfg : Config) (kvs : List (String × JValue))
    (h1 : strContains cfg.BEDROCK_MODEL_ID "anthropic" = false)
    (h2 : strContains cfg.BEDROCK_MODEL_ID "amazon.titan" = false) :
    parse_content cfg (jobj kvs) =
      .ok ((List.lookup "completion" kvs).getD
        ((List.lookup "text" kvs).getD (jstr (pyStr (jobj kvs))))) ∧
    parse_content cfgOther (jobj [("text", jstr "fallback reply")]) =
      .ok (jstr "fallback reply") := by
  constructor
  · unfold parse_content
    rw [h1, h2]
    rfl
  · rfl

/-- C8 witness: the generic configuration and the scenario response. -/
theorem C8_generic_content_extraction_witness :
    strContains cfgOther.BEDROCK_MODEL_ID "anthropic" = false ∧
    strContains cfgOther.BEDROCK_MODEL_ID "amazon.titan" = false ∧
    parse_content cfgOther (jobj [("text", jstr "fallback reply")]) =
      .ok ((List.lookup "completion" [("text", jstr "fallback reply")]).getD
        ((List.lookup "text" [("text", jstr "fallback reply")]).getD
          (jstr (pyStr (jobj [("text", jstr "fallback reply")]))))) ∧
    parse_content cfgOther (jobj [("text", jstr "fallback reply")]) =
      .ok (jstr "fallback reply") :=
  ⟨rfl, rfl,
   (C8_generic_content_extraction cfgOther [("text", jstr "fallback reply")] rfl rfl).1,
   (C8_generic_content_extraction cfgOther [("text", jstr "fallback reply")] rfl rfl).2⟩

/-- C9: the handler is a total function whose every output is a
create_response envelope with status 200, 400 or 500 (no exception
reaches the trigger layer), and the outer catch-all produces the 500
envelope with success=false, code "InternalServerError", the generic
message and a metadata object. -/
theorem C9_handler_total (cfg : Config) (remote : JValue → RemoteOutcome)
    (ems : ℚ) (ts : Int) (ctx : Option String) (ev : Event) :
    (∃ s b, (handlerTrace cfg remote ems ts ctx ev).1 = create_response s b none ∧
      (s = 200 ∨ s = 400 ∨ s = 500)) ∧
    handler_catch_response ems ts ctx =
      create_response 500
        (jobj [("success", jbool false),
               ("error", jobj [("code", jstr "InternalServerError"),
                               ("message", jstr "An unexpected error occurred")]),
               ("metadata", metaObj ems ts ctx)])
        none :=
  ⟨handlerTrace_shape cfg remote ems ts ctx ev, rfl⟩

/-- When the prompt key is absent or its value falsy, validateBody
reports the prompt-required message. -/
theorem validateBody_noPrompt (kvs : List (String × JValue))
    (hp : List.lookup "prompt" kvs = none ∨
      ∃ p, List.lookup "prompt" kvs = some p ∧ truthy p = false) :
    validateBody (jobj kvs) =
      .ok (false, "Prompt is required in request body", none) := by
  rcases hp with hnone | ⟨p, hsome, hfalse⟩
  · simp [validateBody, pyContains, hnone]
  · simp [validateBody, pyContains, pySubscript, hsome, hfalse]

/-- With a truthy prompt and a max_tokens value failing the source check
(not a Python int, or numerically below 1), validateBody reports the
max_tokens message. -/
theorem validateBody_badMaxTokens (kvs : List (String × JValue))
    (hp : ∃ p, List.lookup "prompt" kvs = some p ∧ truthy p = true)
    (hmt : ∃ m, List.lookup "max_tokens" kvs = some m ∧
      (pyIsInstInt m = false ∨ pyAsRat m < 1)) :
    validateBody (jobj kvs) =
      .ok (false, "max_tokens must be a positive integer", none) := by
  obtain ⟨p, hps, hpt⟩ := hp
  obtain ⟨m, hms, hbad⟩ := hmt
  rcases hbad with hni | hlt
  · simp [validateBody, validateMaxTokens, pyContains, pySubscript, hps, hpt, hms, hni]
  · simp [validateBody, validateMaxTokens, pyContains, pySubscript, hps, hpt, hms, hlt]

/-- For a POST event with a parsed object body, validation rejects with
the given message exactly when validateBody reports it. -/
theorem validate_request_ofBody (ev : Event) (v : JValue)
    (res : Bool × String × Option JValue)
    (hm : ev.httpMethod = some "POST") (hb : ev.body = .parsed v)
    (hvb : validateBody v = .ok res) :
    validate_request ev = res := by
  unfold validate_request
  rw [hm, hb]
  simp [hvb]

/-- C3 counterexample: the JSON number 42 is not a non-empty string, yet
a body carrying prompt 42 passes validation; and the rejection message
for a missing prompt is "Prompt is required in request body", not
"Prompt is required". -/
theorem C3_counterexample :
    validate_request evPromptNum =
      (true, "Valid request", some (jobj [("prompt", jint 42)])) ∧
    validate_request evNoPrompt =
      (false, "Prompt is required in request body", none) ∧
    "Prompt is required in request body" ≠ "Prompt is required" :=
  ⟨rfl, rfl, by decide⟩

/-- C3 amended: for every POST request parsing to a JSON object whose
prompt key is absent or has a falsy value (the empty string included),
validate_request returns ok=false with message "Prompt is required in
request body" and the handler returns status 400; a present truthy value
of any type passes the prompt check. -/
theorem C3_falsy_prompt_rejected (cfg : Config) (remote : JValue → RemoteOutcome)
    (ems : ℚ) (ts : Int) (ctx : Option String) (ev : Event)
    (kvs : List (String × JValue))
    (hm : ev.httpMethod = some "POST") (hb : ev.body = .parsed (jobj kvs))
    (hp : List.lookup "prompt" kvs = none ∨
      ∃ p, List.lookup "prompt" kvs = some p ∧ truthy p = false) :
    validate_request ev = (false, "Prompt is required in request body", none) ∧
    (handlerTrace cfg remote ems ts ctx ev).1.statusCode = 400 := by
  have hv : validate_request ev = (false, "Prompt is required in request body", none) :=
    validate_request_ofBody ev (jobj kvs) _ hm hb (validateBody_noPrompt kvs hp)
  refine ⟨hv, ?_⟩
  rw [handlerTrace_invalid cfg remote ems ts ctx ev _ none hv]
  rfl

/-- C3 witness: a POST event whose prompt is the empty string. -/
theorem C3_falsy_prompt_rejected_witness :
    validate_request ⟨some "POST", .parsed (jobj [("prompt", jstr "")])⟩ =
      (false, "Prompt is required in request body", none) ∧
    (handlerTrace cfgDefault remoteStub 0 0 none
      ⟨some "POST", .parsed (jobj [("prompt", jstr "")])⟩).1.statusCode = 400 :=
  C3_falsy_prompt_rejected cfgDefault remoteStub 0 0 none
    ⟨some "POST", .parsed (jobj [("prompt", jstr "")])⟩ [("prompt", jstr "")]
    rfl rfl (Or.inr ⟨jstr "", rfl, rfl⟩)

/-- C4 counterexample: the JSON boolean true is not a positive integer,
yet a body with max_tokens true passes validation (Python bools are
ints and True equals 1), and the handler proceeds to a 200 response
instead of the claimed 400. -/
theorem C4_counterexample :
    validate_request evMaxTokensTrue =
      (true, "Valid request",
       some (jobj [("prompt", jstr "hi"), ("max_tokens", jbool true)])) ∧
    (handlerTrace cfgDefault remoteStub 0 0 none evMaxTokensTrue).1.statusCode = 200 :=
  ⟨rfl, rfl⟩

/-- C4 amended: for every POST request parsing to a JSON object with a
truthy prompt and a max_tokens value that is not a Python int of value
at least 1 (zero, negatives, floats, strings, arrays, objects, null and
the boolean false are all rejected; the boolean true counts as the int 1
and is accepted), validate_request returns ok=false with the message
naming max_tokens and the handler returns status 400. -/
theorem C4_bad_max_tokens_rejected (cfg : Config) (remote : JValue → RemoteOutcome)
    (ems : ℚ) (ts : Int) (ctx : Option String) (ev : Event)
    (kvs : List (String × JValue))
    (hm : ev.httpMethod = some "POST") (hb : ev.body = .parsed (jobj kvs))
    (hp : ∃ p, List.lookup "prompt" kvs = some p ∧ truthy p = true)
    (hmt : ∃ m, List.lookup "max_tokens" kvs = some m ∧
      (pyIsInstInt m = false ∨ pyAsRat m < 1)) :
    validate_request ev = (false, "max_tokens must be a positive integer", none) ∧
    (handlerTrace cfg remote ems ts ctx ev).1.statusCode = 400 := by
  have hv : validate_request ev = (false, "max_tokens must be a positive integer", none) :=
    validate_request_ofBody ev (jobj kvs) _ hm hb (validateBody_badMaxTokens kvs hp hmt)
  refine ⟨hv, ?_⟩
  rw [handlerTrace_invalid cfg remote ems ts ctx ev _ none hv]
  rfl

/-- C4 witness: a POST event whose max_tokens is the JSON number 0. -/
theorem C4_bad_max_tokens_rejected_witness :
    validate_request
      ⟨some "POST", .parsed (jobj [("prompt", jstr "hi"), ("max_tokens", jint 0)])⟩ =
      (false, "max_tokens must be a positive integer", none) ∧
    (handlerTrace cfgDefault remoteStub 0 0 none
      ⟨some "POST", .parsed (jobj [("prompt", jstr "hi"), ("max_tokens", jint 0)])⟩).1.statusCode = 400 :=
  C4_bad_max_tokens_rejected cfgDefault remoteStub 0 0 none
    ⟨some "POST", .parsed (jobj [("prompt", jstr "hi"), ("max_tokens", jint 0)])⟩
    [("prompt", jstr "hi"), ("max_tokens", jint 0)]
    rfl rfl ⟨jstr "hi", rfl, rfl⟩ ⟨jint 0, rfl, Or.inr (by decide)⟩

/-- C10: for every POST event whose body parses to a non-object JSON
value, validation fails (reporting either the missing prompt or the
internal validation error caught from the resulting TypeError), the
handler returns status 400, and the remote call trace stays empty. -/
theorem C10_nonobject_body_rejected (cfg : Config) (remote : JValue → RemoteOutcome)
    (ems : ℚ) (ts : Int) (ctx : Option String) (ev : Event) (v : JValue)
    (hm : ev.httpMethod = some "POST") (hb : ev.body = .parsed v)
    (hv : isObj v = false) :
    ((validate_request ev).1 = false ∧
     ((validate_request ev).2.1 = "Prompt is required in request body" ∨
      (validate_request ev).2.1 = "Internal validation error")) ∧
    (handlerTrace cfg remote ems ts ctx ev).1.statusCode = 400 ∧
    (handlerTrace cfg remote ems ts ctx ev).2 = [] := by
  have key : ∃ msg, (msg = "Prompt is required in request body" ∨
      msg = "Internal validation error") ∧
      validate_request ev = (false, msg, none) := by
    have hVB : validateBody v = .ok (false, "Prompt is required in request body", none) ∨
        validateBody v = .error () := by
      cases v with
      | jobj kvs => simp [isObj] at hv
      | jarr xs =>
        cases hl : listHasStr xs "prompt" with
        | false => exact Or.inl (by simp [validateBody, pyContains, hl])
        | true => exact Or.inr (by simp [validateBody, pyContains, pySubscript, hl])
      | jstr s =>
        cases hc : strContains s "prompt" with
        | false => exact Or.inl (by simp [validateBody, pyContains, hc])
        | true => exact Or.inr (by simp [validateBody, pyContains, pySubscript, hc])
      | jnull => exact Or.inr (by simp [validateBody, pyContains])
      | jbool b => exact Or.inr (by simp [validateBody, pyContains])
      | jint n => exact Or.inr (by simp [validateBody, pyContains])
      | jfloat q => exact Or.inr (by simp [validateBody, pyContains])
    rcases hVB with h1 | h1
    · exact ⟨_, Or.inl rfl, validate_request_ofBody ev v _ hm hb h1⟩
    · refine ⟨_, Or.inr rfl, ?_⟩
      unfold validate_request
      rw [hm, hb]
      simp [h1]
  obtain ⟨msg, hmsg, hval⟩ := key
  have h400 := handlerTrace_invalid cfg remote ems ts ctx ev msg none hval
  refine ⟨⟨?_, ?_⟩, ?_, ?_⟩
  · rw [hval]
  · rcases hmsg with h | h
    · exact Or.inl (by rw [hval]; exact h)
    · exact Or.inr (by rw [hval]; exact h)
  · rw [h400]
    rfl
  · rw [h400]

/-- C10 witness: a POST event whose body is the JSON array []. -/
theorem C10_nonobject_body_rejected_witness :
    ((validate_request ⟨some "POST", .parsed (jarr [])⟩).1 = false ∧
     ((validate_request ⟨some "POST", .parsed (jarr [])⟩).2.1 =
        "Prompt is required in request body" ∨
      (validate_request ⟨some "POST", .parsed (jarr [])⟩).2.1 =
        "Internal validation error")) ∧
    (handlerTrace cfgDefault remoteStub 0 0 none
      ⟨some "POST", .parsed (jarr [])⟩).1.statusCode = 400 ∧
    (handlerTrace cfgDefault remoteStub 0 0 none
      ⟨some "POST", .parsed (jarr [])⟩).2 = [] :=
  C10_nonobject_body_rejected cfgDefault remoteStub 0 0 none
    ⟨some "POST", .parsed (jarr [])⟩ (jarr []) rfl rfl rfl

end Bedrock
